import Mathlib

/-!
# Aging & Profit Computation Engine — shallow embedding

A shallow embedding of the core logic of `src/app.py` (the Streamlit
dashboard of the Aging-Project repository): the two functions
`hitung_aging` and `hitung_profit`, which derive aging-day counts,
aging categories, net-of-tax monetary fields and a transaction-month
key over tabular project data.

Modelling choices, stated once here:

* A pandas `Timestamp` is modelled as a calendar instant: year, month,
  day plus a seconds-of-day component (`tod`).  Subtraction of two
  timestamps is performed in seconds via a civil-calendar day-number
  conversion (the standard Gregorian days-from-civil algorithm), and
  `Timedelta.days` (pandas' `.dt.days`) is floor division of the
  difference by 86400, matching pandas/python `timedelta` semantics
  (`Timedelta('-1 hours').days = -1`).
* A loaded date cell (object column) is a `CellVal`: either a value
  that `pd.to_datetime(..., errors='coerce')` parses to a timestamp
  (`ts t`), a value it fails to parse (`raw s`), or a missing value
  (`naT`).  Coercion (`toDatetime`) maps `raw` and `naT` to `naT`.
* IEEE-754 float arithmetic on the derived monetary columns is
  modelled by `EVal`: a rational number, a signed infinity, or NaN,
  with the IEEE propagation rules for `+ - * /` restricted to what the
  engine uses (`x / 0` is NaN when `x = 0` and a signed infinity
  otherwise; NaN absorbs).  Rationals stand in for finite doubles.
* A dataframe is a list of records (structures with one field per
  column); column assignments become record updates mapped over the
  list; `merge(..., how='left')` is a flat-map producing one output
  row per (left row, matching right row) pair, or a single
  NaN-padded row when there is no match.
-/

set_option autoImplicit false

namespace AgingProject

/-- A calendar timestamp: year, month (1–12), day (1–31) and a
time-of-day in seconds.  `pd.Timestamp.today()` carries a nonzero
`tod`; dates parsed from date cells have `tod = 0` (midnight) unless
the source cell carried a time. -/
structure Timestamp where
  year : Int
  month : Int
  day : Int
  tod : Int
  deriving DecidableEq, Repr

/-- Days since 1970-01-01 of a civil date (proleptic Gregorian), the
standard days-from-civil algorithm, with floor division for the era. -/
def daysFromCivil (y m d : Int) : Int :=
  let y' : Int := if m ≤ 2 then y - 1 else y
  let era : Int := Int.fdiv y' 400
  let yoe : Int := y' - era * 400
  let mp : Int := if m > 2 then m - 3 else m + 9
  let doy : Int := Int.fdiv (153 * mp + 2) 5 + d - 1
  let doe : Int := yoe * 365 + Int.fdiv yoe 4 - Int.fdiv yoe 100 + doy
  era * 146097 + doe - 719468

/-- A timestamp as seconds since the epoch. -/
def Timestamp.toSeconds (t : Timestamp) : Int :=
  daysFromCivil t.year t.month t.day * 86400 + t.tod

/-- `Timedelta.days` of a difference given in seconds: floor division
by 86400 (pandas normalises negative timedeltas to a floored day count
plus a nonnegative remainder, e.g. `Timedelta('-1 hours').days = -1`). -/
def tdDays (seconds : Int) : Int :=
  Int.fdiv seconds 86400

/-- A loaded cell of a date column before coercion. -/
inductive CellVal where
  /-- a cell `pd.to_datetime` parses to timestamp `t` (an actual
  datetime, or a parseable string identified with its parse) -/
  | ts (t : Timestamp)
  /-- a cell `pd.to_datetime(..., errors='coerce')` cannot parse -/
  | raw (s : String)
  /-- a missing cell (`NaT`/`NaN`) -/
  | naT
  deriving DecidableEq, Repr

/-- `pd.to_datetime(col, errors='coerce')` on one cell: unparseable
and missing values both coerce to `NaT`. -/
def toDatetime : CellVal → CellVal
  | .ts t => .ts t
  | .raw _ => .naT
  | .naT => .naT

/-- The timestamp held by a coerced cell, if any (`notna` ↔ `isSome`). -/
def CellVal.getTs : CellVal → Option Timestamp
  | .ts t => some t
  | _ => none

/-- One row of the "Detail Pipeline" sheet as loaded. -/
structure ProjectRecord where
  salesName : String
  dateRegister : CellVal
  bulanClosed : CellVal
  customer : String
  projectName : String
  typeProduct : String
  qty : ℚ
  hargaSatuan : ℚ
  deriving DecidableEq, Repr

/-- A project row after `hitung_aging`: the two date columns now hold
their coerced values and the columns `Aging Days` / `Aging Category`
have been added (`Aging Days` is NaN — here `none` — when the used
date difference involved a `NaT`). -/
structure AgedRecord where
  salesName : String
  dateRegister : CellVal
  bulanClosed : CellVal
  customer : String
  projectName : String
  typeProduct : String
  qty : ℚ
  hargaSatuan : ℚ
  agingDays : Option Int
  agingCategory : String
  deriving DecidableEq, Repr

/-- The inner `categorize` of `hitung_aging` (src/app.py:39–47):
NaN → "Unknown", `days <= 30` → "≤30 Hari", `days <= 90` →
"31–90 Hari", otherwise ">90 Hari". -/
def categorize : Option Int → String
  | none => "Unknown"
  | some days =>
    if days ≤ 30 then "≤30 Hari"
    else if days ≤ 90 then "31–90 Hari"
    else ">90 Hari"

/-- `hitung_aging` on one row (src/app.py:28–50): coerce both date
columns, then `Aging Days = np.where(closed.notna(), (closed -
register).dt.days, (today - register).dt.days)` and `Aging Category =
categorize(Aging Days)`.  A difference with `NaT` is NaN (`none`). -/
def hitungAgingRec (today : Timestamp) (r : ProjectRecord) : AgedRecord :=
  let reg := toDatetime r.dateRegister
  let closed := toDatetime r.bulanClosed
  let days : Option Int :=
    match closed.getTs with
    | some c => reg.getTs.map fun rg => tdDays (c.toSeconds - rg.toSeconds)
    | none => reg.getTs.map fun rg => tdDays (today.toSeconds - rg.toSeconds)
  { salesName := r.salesName
    dateRegister := reg
    bulanClosed := closed
    customer := r.customer
    projectName := r.projectName
    typeProduct := r.typeProduct
    qty := r.qty
    hargaSatuan := r.hargaSatuan
    agingDays := days
    agingCategory := categorize days }

/-- `hitung_aging` over the dataframe, with the reference instant
`today = pd.Timestamp.today()` passed explicitly. -/
def hitung_aging (today : Timestamp) (df : List ProjectRecord) : List AgedRecord :=
  df.map (hitungAgingRec today)

/-! ## IEEE-style extended values for the monetary columns -/

/-- A double held in a derived monetary column: a finite value
(modelled as a rational), a signed infinity (`neg = true` for `-∞`),
or NaN.  `NaN` is what a missing `Harga Perolehan` contributes after
the left merge. -/
inductive EVal where
  | num (q : ℚ)
  | inf (neg : Bool)
  | nan
  deriving DecidableEq, Repr

namespace EVal

/-- IEEE addition (no signed zeros; rationals for finite doubles). -/
def add : EVal → EVal → EVal
  | nan, _ => nan
  | _, nan => nan
  | num a, num b => num (a + b)
  | num _, inf s => inf s
  | inf s, num _ => inf s
  | inf s, inf t => if s = t then inf s else nan

/-- IEEE subtraction. -/
def sub : EVal → EVal → EVal
  | nan, _ => nan
  | _, nan => nan
  | num a, num b => num (a - b)
  | num _, inf s => inf (!s)
  | inf s, num _ => inf s
  | inf s, inf t => if s = t then nan else inf s

/-- IEEE multiplication (`∞ * 0 = NaN`). -/
def mul : EVal → EVal → EVal
  | nan, _ => nan
  | _, nan => nan
  | num a, num b => num (a * b)
  | num a, inf s => if a = 0 then nan else inf (xor (decide (a < 0)) s)
  | inf s, num b => if b = 0 then nan else inf (xor s (decide (b < 0)))
  | inf s, inf t => inf (xor s t)

/-- IEEE division: `0 / 0 = NaN`, `a / 0 = ±∞` for `a ≠ 0` (numpy
emits a warning but no exception; pandas suppresses it),
`a / ±∞ = 0`, `±∞ / ±∞ = NaN`. -/
def div : EVal → EVal → EVal
  | nan, _ => nan
  | _, nan => nan
  | num a, num b =>
    if b = 0 then (if a = 0 then nan else inf (decide (a < 0)))
    else num (a / b)
  | num _, inf _ => num 0
  | inf s, num b => inf (xor s (decide (b < 0)))
  | inf _, inf _ => nan

instance : Add EVal := ⟨add⟩
instance : Sub EVal := ⟨sub⟩
instance : Mul EVal := ⟨mul⟩
instance : Div EVal := ⟨div⟩

/-- An undefined (non-finite) value: NaN or an infinity. -/
def isUndef : EVal → Bool
  | num _ => false
  | _ => true

end EVal

/-- `float(NaN-able cell)`: a present numeric cell or NaN. -/
def optToEVal : Option ℚ → EVal
  | some q => .num q
  | none => .nan

/-! ## The profit calculator -/

/-- `PAJAK_RATE` (src/app.py:10). -/
def PAJAK_RATE : ℚ := 11 / 100

/-- One row of the "Order Philips" sheet: `Nama Produk` and `Harga
Perolehan`, either of which may be missing (`none` = NaN). -/
structure OrderRow where
  namaProduk : Option String
  hargaPerolehan : Option ℚ
  deriving DecidableEq, Repr

/-- The scanning pass of `drop_duplicates(keep='first')`: a row is
kept iff its key has not occurred earlier (`seen` holds the keys of
the rows already scanned). -/
def dedupGo (seen : List String) : List (String × ℚ) → List (String × ℚ)
  | [] => []
  | x :: xs =>
    if x.1 ∈ seen then dedupGo seen xs
    else x :: dedupGo (x.1 :: seen) xs

/-- `drop_duplicates(subset=['Nama Produk'], keep='first')` on the
already-complete entries: keep each first occurrence of a product
name, drop every later row with the same name. -/
def dedupByFirst (l : List (String × ℚ)) : List (String × ℚ) :=
  dedupGo [] l

/-- Lines 57–58 of src/app.py: `dropna(subset=['Nama Produk', 'Harga
Perolehan'])` then `drop_duplicates(subset=['Nama Produk'],
keep='first')`, yielding the cost lookup table. -/
def cleanOrders (rows : List OrderRow) : List (String × ℚ) :=
  dedupByFirst (rows.filterMap fun r =>
    match r.namaProduk, r.hargaPerolehan with
    | some n, some h => some (n, h)
    | _, _ => none)

/-- Looking a product name up in the cost table: first entry wins. -/
def lookupCost (table : List (String × ℚ)) (k : String) : Option ℚ :=
  (table.find? fun e => e.1 = k).map (·.2)

/-- A row of the merged frame (lines 61–66): the aged row plus the
`Nama Produk` / `Harga Perolehan` columns brought in by the left
merge, NaN (`none`) when no order row matched. -/
structure MergedRow where
  base : AgedRecord
  namaProduk : Option String
  hargaPerolehan : Option ℚ
  deriving DecidableEq, Repr

/-- `df.merge(order_df[...], left_on='Type Product', right_on='Nama
Produk', how='left')`: each left row is paired with every right row
whose key matches; a left row with no match survives once with NaN in
the right columns. -/
def mergeLeft (df : List AgedRecord) (table : List (String × ℚ)) : List MergedRow :=
  df.flatMap fun r =>
    match table.filter fun e => e.1 = r.typeProduct with
    | [] => [{ base := r, namaProduk := none, hargaPerolehan := none }]
    | ms => ms.map fun e => { base := r, namaProduk := some e.1, hargaPerolehan := some e.2 }

/-- A merged row with the derived monetary columns and the
transaction-month column of lines 68–73 added. -/
structure ProfitRecord where
  base : AgedRecord
  namaProduk : Option String
  hargaPerolehan : Option ℚ
  hargaNetto : EVal
  totalJualNetto : EVal
  totalPerolehan : EVal
  profitValue : EVal
  profitPercent : EVal
  bulanTransaksi : String
  deriving DecidableEq, Repr

/-- Decimal digits of a nonnegative year, zero-padded to width 4. -/
def pad4 (n : Int) : String :=
  let s := toString n
  if n < 0 then s
  else if n < 10 then "000" ++ s
  else if n < 100 then "00" ++ s
  else if n < 1000 then "0" ++ s
  else s

/-- A month number zero-padded to width 2. -/
def pad2 (n : Int) : String :=
  if 0 ≤ n ∧ n < 10 then "0" ++ toString n else toString n

/-- `pd.to_datetime(col, errors='coerce').dt.to_period('M').astype(str)`
on one cell (line 73): a parseable date renders as `"YYYY-MM"`; a
`NaT` renders — via `astype(str)` — as the literal string `"NaT"`. -/
def toPeriodMStr (c : CellVal) : String :=
  match (toDatetime c).getTs with
  | some t => pad4 t.year ++ "-" ++ pad2 t.month
  | none => "NaT"

/-- Lines 68–73 of src/app.py on one merged row. -/
def profitFields (m : MergedRow) : ProfitRecord :=
  let hargaNetto := EVal.num m.base.hargaSatuan / EVal.num (1 + PAJAK_RATE)
  let totalJualNetto := hargaNetto * EVal.num m.base.qty
  let totalPerolehan := optToEVal m.hargaPerolehan * EVal.num m.base.qty
  let profitValue := totalJualNetto - totalPerolehan
  { base := m.base
    namaProduk := m.namaProduk
    hargaPerolehan := m.hargaPerolehan
    hargaNetto := hargaNetto
    totalJualNetto := totalJualNetto
    totalPerolehan := totalPerolehan
    profitValue := profitValue
    profitPercent := profitValue / totalJualNetto * EVal.num 100
    bulanTransaksi := toPeriodMStr m.base.dateRegister }

/-- `hitung_profit` (src/app.py:55–74): clean the order sheet into
the cost lookup table, left-merge it onto the aged project rows, then
add the derived monetary columns and the transaction month. -/
def hitung_profit (df : List AgedRecord) (order_df : List OrderRow) : List ProfitRecord :=
  (mergeLeft df (cleanOrders order_df)).map profitFields

/-! ## Concrete fixtures

The end-to-end scenario of the specification (registration 2024-01-01,
open, product "X", quantity 2, unit price 111, cost table with "X" at
50, evaluated on 2024-04-30) and small variations of it. -/

/-- Registration 2024-01-01, still open, product "X", `QTY` 2,
`Harga Satuan` 111. -/
def rec0 : ProjectRecord :=
  { salesName := "A"
    dateRegister := .ts ⟨2024, 1, 1, 0⟩
    bulanClosed := .naT
    customer := "C"
    projectName := "P"
    typeProduct := "X"
    qty := 2
    hargaSatuan := 111 }

/-- The reference instant 2024-04-30 (midnight). -/
def today0 : Timestamp := ⟨2024, 4, 30, 0⟩

/-- A reference instant carrying a time of day (01:00:00), as
`pd.Timestamp.today()` does. -/
def today1 : Timestamp := ⟨2024, 1, 1, 3600⟩

/-- An order sheet with a duplicate "X" entry and two incomplete
rows. -/
def ord0 : List OrderRow :=
  [⟨some "X", some 50⟩, ⟨some "X", some 70⟩, ⟨none, some 3⟩, ⟨some "Z", none⟩]

/-- `rec0` aged at `today0`. -/
def aged0 : List AgedRecord := hitung_aging today0 [rec0]

/-- `rec0` closed exactly 30 days after registration. -/
def rec30 : ProjectRecord := { rec0 with bulanClosed := .ts ⟨2024, 1, 31, 0⟩ }

/-- `rec0` registered one day after the reference instant `today1`
(a still-open record whose registration lies in the future). -/
def recFut : ProjectRecord := { rec0 with dateRegister := .ts ⟨2024, 1, 2, 0⟩ }

/-- `rec0` with an unparseable registration date. -/
def recB : ProjectRecord := { rec0 with dateRegister := .raw "not-a-date" }

/-- `recB` aged at `today0`. -/
def agedB : List AgedRecord := hitung_aging today0 [recB]

/-- `rec0` with product "Y", absent from the cost table. -/
def recY : ProjectRecord := { rec0 with typeProduct := "Y" }

/-- `recY` aged at `today0`. -/
def agedY : List AgedRecord := hitung_aging today0 [recY]

/-- `rec0` with a zero unit sale price. -/
def recZ : ProjectRecord := { rec0 with hargaSatuan := 0 }

/-- `recZ` aged at `today0`. -/
def agedZ : List AgedRecord := hitung_aging today0 [recZ]

/-- The enriched row `hitung_profit aged0 ord0` produces. -/
def p0 : ProfitRecord :=
  profitFields
    { base := hitungAgingRec today0 rec0, namaProduk := some "X", hargaPerolehan := some 50 }

/-- The enriched row `hitung_profit agedY ord0` produces. -/
def pY : ProfitRecord :=
  profitFields
    { base := hitungAgingRec today0 recY, namaProduk := none, hargaPerolehan := none }

/-- The enriched row `hitung_profit agedZ ord0` produces. -/
def pZ : ProfitRecord :=
  profitFields
    { base := hitungAgingRec today0 recZ, namaProduk := some "X", hargaPerolehan := some 50 }

/-! ## Helper lemmas -/

/-- NaN absorbs on the left of multiplication. -/
theorem EVal.nan_mul (x : EVal) : EVal.nan * x = EVal.nan := by
  cases x <;> rfl

/-- NaN absorbs on the right of subtraction. -/
theorem EVal.sub_nan (x : EVal) : x - EVal.nan = EVal.nan := by
  cases x <;> rfl

/-- NaN absorbs on the left of division. -/
theorem EVal.nan_div (x : EVal) : EVal.nan / x = EVal.nan := by
  cases x <;> rfl

/-- Finite division by a nonzero finite value is finite. -/
theorem EVal.num_div_num (a b : ℚ) (hb : b ≠ 0) :
    EVal.num a / EVal.num b = EVal.num (a / b) := by
  show EVal.div (EVal.num a) (EVal.num b) = EVal.num (a / b)
  simp only [EVal.div, if_neg hb]

/-- Finite multiplication is finite. -/
theorem EVal.num_mul_num (a b : ℚ) : EVal.num a * EVal.num b = EVal.num (a * b) := rfl

/-- Dividing anything by finite zero is undefined (NaN or ±∞). -/
theorem EVal.isUndef_div_num_zero (x : EVal) : (x / EVal.num 0).isUndef = true := by
  cases x with
  | num a =>
    show (EVal.div (EVal.num a) (EVal.num 0)).isUndef = true
    simp only [EVal.div, if_pos rfl]
    by_cases ha : a = 0
    · rw [if_pos ha]; rfl
    · rw [if_neg ha]; rfl
  | inf s => rfl
  | nan => rfl

/-- Multiplying an undefined value by a finite value stays undefined. -/
theorem EVal.isUndef_mul_num {x : EVal} (h : x.isUndef = true) (q : ℚ) :
    (x * EVal.num q).isUndef = true := by
  cases x with
  | num a => simp [EVal.isUndef] at h
  | inf s =>
    show (EVal.mul (EVal.inf s) (EVal.num q)).isUndef = true
    simp only [EVal.mul]
    split <;> rfl
  | nan => rfl

/-- An undefined value is not any finite value. -/
theorem EVal.isUndef_ne_num {x : EVal} (h : x.isUndef = true) (q : ℚ) :
    x ≠ EVal.num q := by
  intro hx
  subst hx
  simp [EVal.isUndef] at h

/-- `find?` with a key predicate, unfolded one cons cell. -/
theorem find?_cons_key (x : String × ℚ) (xs : List (String × ℚ)) (k : String) :
    ((x :: xs).find? fun e => e.1 = k) =
      if x.1 = k then some x else xs.find? fun e => e.1 = k := by
  by_cases hxk : x.1 = k
  · rw [if_pos hxk]
    exact @List.find?_cons_of_pos _ (fun e => decide (e.1 = k)) x xs (by simpa using hxk)
  · rw [if_neg hxk]
    exact @List.find?_cons_of_neg _ (fun e => decide (e.1 = k)) x xs (by simpa using hxk)

/-- Every entry the scanning pass keeps has a key outside `seen`. -/
theorem dedupGo_key_not_seen (seen : List String) (l : List (String × ℚ)) :
    ∀ y ∈ dedupGo seen l, y.1 ∉ seen := by
  induction l generalizing seen with
  | nil =>
    intro y hy
    simp [dedupGo] at hy
  | cons x xs ih =>
    intro y hy
    simp only [dedupGo] at hy
    by_cases hx : x.1 ∈ seen
    · rw [if_pos hx] at hy
      exact ih seen y hy
    · rw [if_neg hx] at hy
      rcases List.mem_cons.mp hy with h | h
      · subst h
        exact hx
      · exact fun hs => ih (x.1 :: seen) y h (List.mem_cons_of_mem _ hs)

/-- The scanning pass leaves pairwise-distinct keys. -/
theorem dedupGo_nodup_keys (seen : List String) (l : List (String × ℚ)) :
    ((dedupGo seen l).map Prod.fst).Nodup := by
  induction l generalizing seen with
  | nil => simp [dedupGo]
  | cons x xs ih =>
    simp only [dedupGo]
    by_cases hx : x.1 ∈ seen
    · rw [if_pos hx]
      exact ih seen
    · rw [if_neg hx, List.map_cons, List.nodup_cons]
      refine ⟨fun hmem => ?_, ih _⟩
      rcases List.mem_map.mp hmem with ⟨y, hy, hkey⟩
      exact dedupGo_key_not_seen _ _ y hy (by rw [hkey]; exact List.mem_cons_self _ _)

/-- For a key not yet seen, the scanning pass preserves the first
entry found for it. -/
theorem dedupGo_find? (seen : List String) (l : List (String × ℚ)) (k : String)
    (hk : k ∉ seen) :
    (dedupGo seen l).find? (fun e => e.1 = k) = l.find? (fun e => e.1 = k) := by
  induction l generalizing seen with
  | nil => rfl
  | cons x xs ih =>
    simp only [dedupGo]
    by_cases hx : x.1 ∈ seen
    · rw [if_pos hx, ih seen hk, find?_cons_key,
        if_neg (show ¬x.1 = k from fun h => hk (h ▸ hx))]
    · rw [if_neg hx, find?_cons_key, find?_cons_key]
      by_cases hxk : x.1 = k
      · rw [if_pos hxk, if_pos hxk]
      · rw [if_neg hxk, if_neg hxk]
        refine ih (x.1 :: seen) ?_
        intro hmem
        rcases List.mem_cons.mp hmem with h | h
        · exact hxk h.symm
        · exact hk h

/-- Deduplication by first occurrence preserves first-occurrence
lookups. -/
theorem dedupByFirst_find? (l : List (String × ℚ)) (k : String) :
    (dedupByFirst l).find? (fun e => e.1 = k) = l.find? (fun e => e.1 = k) :=
  dedupGo_find? [] l k (List.not_mem_nil k)

/-- Deduplication by first occurrence leaves pairwise-distinct keys. -/
theorem dedupByFirst_nodup_keys (l : List (String × ℚ)) :
    ((dedupByFirst l).map Prod.fst).Nodup :=
  dedupGo_nodup_keys [] l

/-- The cost lookup table has pairwise-distinct product names. -/
theorem cleanOrders_nodup_keys (rows : List OrderRow) :
    ((cleanOrders rows).map Prod.fst).Nodup :=
  dedupByFirst_nodup_keys _

/-- Over a table with pairwise-distinct keys, filtering by one key
yields the entry `find?` yields, or nothing. -/
theorem filter_key_of_nodup (table : List (String × ℚ))
    (h : (table.map Prod.fst).Nodup) (k : String) :
    table.filter (fun e => e.1 = k) =
      (table.find? fun e => e.1 = k).elim [] (fun e => [e]) := by
  induction table with
  | nil => rfl
  | cons x xs ih =>
    rw [List.map_cons, List.nodup_cons] at h
    by_cases hxk : x.1 = k
    · have hxs : xs.filter (fun e => e.1 = k) = [] := by
        rw [List.filter_eq_nil_iff]
        intro e he
        simp only [decide_eq_true_eq]
        intro hek
        exact h.1 (List.mem_map.mpr ⟨e, he, hek.trans hxk.symm⟩)
      rw [List.filter_cons_of_pos (by simpa using hxk), hxs,
        find?_cons_key, if_pos hxk]
      rfl
    · rw [List.filter_cons_of_neg (by simpa using hxk),
        find?_cons_key, if_neg hxk, ih h.2]

/-- With a deduplicated right table, the left merge produces exactly
one row per left row, carrying the first-found cost entry (or NaN). -/
theorem mergeLeft_eq_map (df : List AgedRecord) (table : List (String × ℚ))
    (h : (table.map Prod.fst).Nodup) :
    mergeLeft df table = df.map fun r =>
      { base := r,
        namaProduk := (table.find? fun e => e.1 = r.typeProduct).map Prod.fst,
        hargaPerolehan := (table.find? fun e => e.1 = r.typeProduct).map Prod.snd } := by
  induction df with
  | nil => rfl
  | cons r rs ih =>
    simp only [mergeLeft, List.flatMap_cons, List.map_cons] at ih ⊢
    rw [ih, filter_key_of_nodup table h r.typeProduct]
    cases table.find? fun e => e.1 = r.typeProduct <;> rfl

/-- `hitung_profit` row by row: each aged row is mapped to its
enriched row, with the cost columns given by the table lookup. -/
theorem hitung_profit_eq_map (df : List AgedRecord) (order_df : List OrderRow) :
    hitung_profit df order_df = df.map fun r =>
      profitFields
        { base := r,
          namaProduk :=
            ((cleanOrders order_df).find? fun e => e.1 = r.typeProduct).map Prod.fst,
          hargaPerolehan := lookupCost (cleanOrders order_df) r.typeProduct } := by
  rw [hitung_profit, mergeLeft_eq_map df _ (cleanOrders_nodup_keys order_df), List.map_map]
  rfl

/-! ## Claims -/

/-- C2 (amended): for every record whose registration date parses,
`hitung_aging` computes `agingDays` from the closing date when one is
present and from the reference instant otherwise; both differences are
FLOORED (not truncated) to integer days, and an unparseable
registration date yields an undefined `agingDays`. -/
theorem hitung_aging_days_floor (today : Timestamp) (r : ProjectRecord) :
    ((toDatetime r.dateRegister).getTs = none →
      (hitungAgingRec today r).agingDays = none) ∧
    ∀ rg, (toDatetime r.dateRegister).getTs = some rg →
      (((toDatetime r.bulanClosed).getTs = none →
        (hitungAgingRec today r).agingDays =
          some (Int.fdiv (today.toSeconds - rg.toSeconds) 86400)) ∧
      ∀ c, (toDatetime r.bulanClosed).getTs = some c →
        (hitungAgingRec today r).agingDays =
          some (Int.fdiv (c.toSeconds - rg.toSeconds) 86400)) := by
  refine ⟨fun h => ?_, fun rg hrg => ⟨fun hc => ?_, fun c hc => ?_⟩⟩
  · cases hcl : (toDatetime r.bulanClosed).getTs <;>
      simp [hitungAgingRec, h, hcl]
  · simp [hitungAgingRec, hrg, hc, tdDays]
  · simp [hitungAgingRec, hrg, hc, tdDays]

/-- C2 witness: the end-to-end scenario — registration 2024-01-01,
open record, evaluated at 2024-04-30 — yields the floored day
difference (120 days). -/
theorem hitung_aging_days_floor_witness :
    (hitungAgingRec today0 rec0).agingDays =
      some (Int.fdiv (today0.toSeconds - (Timestamp.mk 2024 1 1 0).toSeconds) 86400) :=
  ((hitung_aging_days_floor today0 rec0).2 ⟨2024, 1, 1, 0⟩ (by decide)).1 (by decide)

/-- C2 counterexample to "truncate": an open record registered one day
after the reference instant `today1` (which carries a time of day) gets
`agingDays = -1` — the floor of the negative fractional difference —
whereas truncation of the same difference gives `0`. -/
theorem hitung_aging_trunc_cex :
    (hitungAgingRec today1 recFut).agingDays = some (-1) ∧
    Int.tdiv (today1.toSeconds - (Timestamp.mk 2024 1 2 0).toSeconds) 86400 = 0 ∧
    (hitungAgingRec today1 recFut).agingDays ≠
      some (Int.tdiv (today1.toSeconds - (Timestamp.mk 2024 1 2 0).toSeconds) 86400) := by
  decide

/-- C3 (amended): `hitung_aging` assigns the category by the claimed
boundary rules, but with the code's labels "Unknown" / "≤30 Hari" /
"31–90 Hari" / ">90 Hari" (not the spec's English "... Days"):
unparseable registration → "Unknown"; `agingDays ≤ 30` (negatives
included, unclamped) → "≤30 Hari"; `30 < agingDays ≤ 90` →
"31–90 Hari"; `agingDays > 90` → ">90 Hari". -/
theorem hitung_aging_categories (today : Timestamp) (r : ProjectRecord) :
    (((toDatetime r.dateRegister).getTs = none →
      (hitungAgingRec today r).agingCategory = "Unknown") ∧
    ((hitungAgingRec today r).agingDays = none →
      (hitungAgingRec today r).agingCategory = "Unknown")) ∧
    ∀ n : Int, (hitungAgingRec today r).agingDays = some n →
      ((n ≤ 30 → (hitungAgingRec today r).agingCategory = "≤30 Hari") ∧
       (30 < n → n ≤ 90 → (hitungAgingRec today r).agingCategory = "31–90 Hari") ∧
       (90 < n → (hitungAgingRec today r).agingCategory = ">90 Hari")) := by
  have hc : (hitungAgingRec today r).agingCategory
      = categorize (hitungAgingRec today r).agingDays := rfl
  refine ⟨⟨fun h => ?_, fun h => ?_⟩, fun n h => ?_⟩
  · have hnone : (hitungAgingRec today r).agingDays = none := by
      cases hcl : (toDatetime r.bulanClosed).getTs <;>
        simp [hitungAgingRec, h, hcl]
    rw [hc, hnone]
    rfl
  · rw [hc, h]
    rfl
  · rw [hc, h]
    simp only [categorize]
    refine ⟨fun h30 => ?_, fun h30 h90 => ?_, fun h90 => ?_⟩
    · rw [if_pos h30]
    · rw [if_neg (by omega), if_pos h90]
    · rw [if_neg (by omega), if_neg (by omega)]

/-- C3 witness: a record closed exactly 30 days after registration
falls in the "≤30 Hari" bucket (boundary inclusive). -/
theorem hitung_aging_categories_witness :
    (hitungAgingRec today0 rec30).agingDays = some 30 ∧
    (hitungAgingRec today0 rec30).agingCategory = "≤30 Hari" :=
  ⟨by decide, ((hitung_aging_categories today0 rec30).2 30 (by decide)).1 (by decide)⟩

/-- C3 counterexample: at `agingDays = 30` the code's label is
"≤30 Hari", not the claimed literal "≤30 Days". -/
theorem hitung_aging_label_cex :
    (hitungAgingRec today0 rec30).agingDays = some 30 ∧
    (hitungAgingRec today0 rec30).agingCategory ≠ "≤30 Days" := by
  decide

/-- C9 (amended): `hitungAgingRec` adds `agingDays` / `agingCategory`
and REPLACES the two date fields by their coerced parses (unparseable
values become missing); every other field is unchanged, and the
function is pure — `hitung_aging` returns exactly one output row per
input row and touches nothing else. -/
theorem hitung_aging_frame (today : Timestamp) (r : ProjectRecord) :
    (hitungAgingRec today r).dateRegister = toDatetime r.dateRegister ∧
    (hitungAgingRec today r).bulanClosed = toDatetime r.bulanClosed ∧
    (hitungAgingRec today r).salesName = r.salesName ∧
    (hitungAgingRec today r).customer = r.customer ∧
    (hitungAgingRec today r).projectName = r.projectName ∧
    (hitungAgingRec today r).typeProduct = r.typeProduct ∧
    (hitungAgingRec today r).qty = r.qty ∧
    (hitungAgingRec today r).hargaSatuan = r.hargaSatuan ∧
    ∀ df : List ProjectRecord, hitung_aging today df = df.map (hitungAgingRec today) :=
  ⟨rfl, rfl, rfl, rfl, rfl, rfl, rfl, rfl, fun _ => rfl⟩

/-- C9 counterexample: an unparseable registration date cell is NOT
left "as loaded" — `hitung_aging` overwrites it with the coerced
missing value (`NaT`). -/
theorem hitung_aging_mutates_dates_cex :
    (hitungAgingRec today0 recB).dateRegister ≠ recB.dateRegister := by
  decide

/-- C10: the aging category is total — for every record (and every
integer or missing `agingDays` value) the assigned category is one of
the four labels "Unknown", "≤30 Hari", "31–90 Hari", ">90 Hari". -/
theorem aging_category_enum :
    (∀ d : Option Int,
      categorize d = "Unknown" ∨ categorize d = "≤30 Hari" ∨
      categorize d = "31–90 Hari" ∨ categorize d = ">90 Hari") ∧
    ∀ (today : Timestamp) (r : ProjectRecord),
      (hitungAgingRec today r).agingCategory = "Unknown" ∨
      (hitungAgingRec today r).agingCategory = "≤30 Hari" ∨
      (hitungAgingRec today r).agingCategory = "31–90 Hari" ∨
      (hitungAgingRec today r).agingCategory = ">90 Hari" := by
  have htot : ∀ d : Option Int,
      categorize d = "Unknown" ∨ categorize d = "≤30 Hari" ∨
      categorize d = "31–90 Hari" ∨ categorize d = ">90 Hari" := by
    intro d
    cases d with
    | none => exact Or.inl rfl
    | some n =>
      simp only [categorize]
      split
      · exact Or.inr (Or.inl rfl)
      · split
        · exact Or.inr (Or.inr (Or.inl rfl))
        · exact Or.inr (Or.inr (Or.inr rfl))
  exact ⟨htot, fun today r => htot (hitungAgingRec today r).agingDays⟩

/-- C4: building the cost lookup table first discards entries missing
the product name or the acquisition cost, then deduplicates by product
name keeping the first occurrence: the resulting table has
pairwise-distinct names, and looking any name up yields exactly the
first-encountered complete entry's cost. -/
theorem cleanOrders_first_wins (rows : List OrderRow) :
    ((cleanOrders rows).map Prod.fst).Nodup ∧
    ∀ k, lookupCost (cleanOrders rows) k =
      ((rows.filterMap fun r =>
          match r.namaProduk, r.hargaPerolehan with
          | some n, some h => some (n, h)
          | _, _ => none).find? fun e => e.1 = k).map (·.2) :=
  ⟨cleanOrders_nodup_keys rows, fun k => by
    simp only [lookupCost, cleanOrders, dedupByFirst_find?]⟩

/-- C5: left-join completeness — every input project record appears
exactly once, in order, in the output of `hitung_profit`, whether or
not its product type matches a cost entry; none is dropped, none is
duplicated. -/
theorem hitung_profit_left_join_complete
    (df : List AgedRecord) (order_df : List OrderRow) :
    (hitung_profit df order_df).map (fun p => p.base) = df := by
  rw [hitung_profit_eq_map, List.map_map]
  exact List.map_id'' (fun _ => rfl) df

/-- C1: for every output record with a matching cost-lookup entry, the
derived monetary fields satisfy the claimed equations with the tax
rate 0.11: `netUnitPrice = unitSalePrice / (1 + taxRate)`,
`netTotalSale = netUnitPrice * qty`, `totalAcquisitionCost =
acquisitionCost * qty`, `profitValue = netTotalSale -
totalAcquisitionCost`, `profitPercent = profitValue / netTotalSale *
100`. -/
theorem hitung_profit_matched_equations
    (df : List AgedRecord) (order_df : List OrderRow) (p : ProfitRecord) (c : ℚ)
    (hp : p ∈ hitung_profit df order_df)
    (hc : lookupCost (cleanOrders order_df) p.base.typeProduct = some c) :
    PAJAK_RATE = 11 / 100 ∧
    p.hargaNetto = EVal.num p.base.hargaSatuan / EVal.num (1 + PAJAK_RATE) ∧
    p.totalJualNetto = p.hargaNetto * EVal.num p.base.qty ∧
    p.totalPerolehan = EVal.num c * EVal.num p.base.qty ∧
    p.profitValue = p.totalJualNetto - p.totalPerolehan ∧
    p.profitPercent = p.profitValue / p.totalJualNetto * EVal.num 100 := by
  rw [hitung_profit_eq_map] at hp
  rcases List.mem_map.mp hp with ⟨r, _hr, hpr⟩
  subst hpr
  have hc' : lookupCost (cleanOrders order_df) r.typeProduct = some c := hc
  refine ⟨rfl, rfl, rfl, ?_, rfl, rfl⟩
  show optToEVal (lookupCost (cleanOrders order_df) r.typeProduct) * EVal.num r.qty
      = EVal.num c * EVal.num r.qty
  rw [hc']
  rfl

/-- C1 witness: the end-to-end scenario (unit price 111, qty 2, cost
50, tax 0.11) satisfies all the equations. -/
theorem hitung_profit_matched_equations_witness :
    p0 ∈ hitung_profit aged0 ord0 ∧
    lookupCost (cleanOrders ord0) p0.base.typeProduct = some 50 ∧
    (PAJAK_RATE = 11 / 100 ∧
     p0.hargaNetto = EVal.num p0.base.hargaSatuan / EVal.num (1 + PAJAK_RATE) ∧
     p0.totalJualNetto = p0.hargaNetto * EVal.num p0.base.qty ∧
     p0.totalPerolehan = EVal.num 50 * EVal.num p0.base.qty ∧
     p0.profitValue = p0.totalJualNetto - p0.totalPerolehan ∧
     p0.profitPercent = p0.profitValue / p0.totalJualNetto * EVal.num 100) :=
  ⟨show p0 ∈ hitung_profit aged0 ord0 from List.mem_singleton_self p0, rfl,
    hitung_profit_matched_equations aged0 ord0 p0 50
      (show p0 ∈ hitung_profit aged0 ord0 from List.mem_singleton_self p0) rfl⟩

/-- C6 (amended): for a record whose product type has no matching
entry in the cost lookup table, the cost-derived fields
(`totalAcquisitionCost`, `profitValue`, `profitPercent`) are NaN and
the record — with its aging fields — survives the join; but
`netUnitPrice` and `netTotalSale` are NOT undefined: they are computed
from the sale price as usual. -/
theorem hitung_profit_unmatched
    (df : List AgedRecord) (order_df : List OrderRow) (p : ProfitRecord)
    (hp : p ∈ hitung_profit df order_df)
    (hc : lookupCost (cleanOrders order_df) p.base.typeProduct = none) :
    p.base ∈ df ∧
    p.hargaPerolehan = none ∧
    p.totalPerolehan = EVal.nan ∧
    p.profitValue = EVal.nan ∧
    p.profitPercent = EVal.nan ∧
    p.hargaNetto = EVal.num p.base.hargaSatuan / EVal.num (1 + PAJAK_RATE) ∧
    p.totalJualNetto = p.hargaNetto * EVal.num p.base.qty := by
  rw [hitung_profit_eq_map] at hp
  rcases List.mem_map.mp hp with ⟨r, hr, hpr⟩
  subst hpr
  have hc' : lookupCost (cleanOrders order_df) r.typeProduct = none := hc
  have hperol : optToEVal (lookupCost (cleanOrders order_df) r.typeProduct)
      * EVal.num r.qty = EVal.nan := by
    rw [hc']
    exact EVal.nan_mul _
  have hval : (EVal.num r.hargaSatuan / EVal.num (1 + PAJAK_RATE)) * EVal.num r.qty
      - optToEVal (lookupCost (cleanOrders order_df) r.typeProduct) * EVal.num r.qty
      = EVal.nan := by
    rw [hperol]
    exact EVal.sub_nan _
  refine ⟨hr, hc', hperol, hval, ?_, rfl, rfl⟩
  show ((EVal.num r.hargaSatuan / EVal.num (1 + PAJAK_RATE)) * EVal.num r.qty
      - optToEVal (lookupCost (cleanOrders order_df) r.typeProduct) * EVal.num r.qty)
      / ((EVal.num r.hargaSatuan / EVal.num (1 + PAJAK_RATE)) * EVal.num r.qty)
      * EVal.num 100 = EVal.nan
  rw [hval, EVal.nan_div, EVal.nan_mul]

/-- C6 witness: the unknown-product scenario (product "Y" absent from
the cost table). -/
theorem hitung_profit_unmatched_witness :
    pY ∈ hitung_profit agedY ord0 ∧
    lookupCost (cleanOrders ord0) pY.base.typeProduct = none ∧
    (pY.base ∈ agedY ∧
     pY.hargaPerolehan = none ∧
     pY.totalPerolehan = EVal.nan ∧
     pY.profitValue = EVal.nan ∧
     pY.profitPercent = EVal.nan ∧
     pY.hargaNetto = EVal.num pY.base.hargaSatuan / EVal.num (1 + PAJAK_RATE) ∧
     pY.totalJualNetto = pY.hargaNetto * EVal.num pY.base.qty) :=
  ⟨show pY ∈ hitung_profit agedY ord0 from List.mem_singleton_self pY, rfl,
    hitung_profit_unmatched agedY ord0 pY
      (show pY ∈ hitung_profit agedY ord0 from List.mem_singleton_self pY) rfl⟩

/-- C6 counterexample to "ALL monetary fields undefined": for the
unmatched record (product "Y", unit price 111, qty 2) the net unit
price and net total sale are the perfectly defined values 100 and 200. -/
theorem hitung_profit_unmatched_cex :
    (hitung_profit agedY ord0).map (fun p => p.hargaPerolehan) = [none] ∧
    (hitung_profit agedY ord0).map (fun p => p.hargaNetto) = [EVal.num 100] ∧
    (hitung_profit agedY ord0).map (fun p => p.totalJualNetto) = [EVal.num 200] ∧
    (hitung_profit agedY ord0).map (fun p => p.hargaNetto.isUndef) = [false] := by
  have hv : (1 + PAJAK_RATE : ℚ) ≠ 0 := by norm_num [PAJAK_RATE]
  have hne : pY.hargaNetto = EVal.num 100 := by
    show EVal.num 111 / EVal.num (1 + PAJAK_RATE) = EVal.num 100
    rw [EVal.num_div_num _ _ hv,
      (by norm_num [PAJAK_RATE] : (111 : ℚ) / (1 + PAJAK_RATE) = 100)]
  have htj : pY.totalJualNetto = EVal.num 200 := by
    show (EVal.num 111 / EVal.num (1 + PAJAK_RATE)) * EVal.num 2 = EVal.num 200
    rw [EVal.num_div_num _ _ hv, EVal.num_mul_num,
      (by norm_num [PAJAK_RATE] : (111 : ℚ) / (1 + PAJAK_RATE) * 2 = 200)]
  have key : hitung_profit agedY ord0 = [pY] := rfl
  refine ⟨rfl, ?_, ?_, ?_⟩ <;>
    simp only [key, List.map_cons, List.map_nil, hne, htj, EVal.isUndef]

/-- C7: a record with a zero unit sale price yields `netTotalSale = 0`
and an undefined `profitPercent` — NaN or an infinity, never a finite
number and in particular not zero; the division by zero is total (no
exception is modelled or needed). -/
theorem hitung_profit_zero_sale
    (df : List AgedRecord) (order_df : List OrderRow) (p : ProfitRecord)
    (hp : p ∈ hitung_profit df order_df)
    (h0 : p.base.hargaSatuan = 0) :
    p.totalJualNetto = EVal.num 0 ∧
    p.profitPercent.isUndef = true ∧
    ∀ q : ℚ, p.profitPercent ≠ EVal.num q := by
  rw [hitung_profit_eq_map] at hp
  rcases List.mem_map.mp hp with ⟨r, _hr, hpr⟩
  subst hpr
  have h0' : r.hargaSatuan = 0 := h0
  have hT : (EVal.num r.hargaSatuan / EVal.num (1 + PAJAK_RATE)) * EVal.num r.qty
      = EVal.num 0 := by
    rw [h0', EVal.num_div_num 0 _ (by norm_num [PAJAK_RATE]), EVal.num_mul_num]
    norm_num
  have hU : (((EVal.num r.hargaSatuan / EVal.num (1 + PAJAK_RATE)) * EVal.num r.qty
      - optToEVal (lookupCost (cleanOrders order_df) r.typeProduct) * EVal.num r.qty)
      / ((EVal.num r.hargaSatuan / EVal.num (1 + PAJAK_RATE)) * EVal.num r.qty)
      * EVal.num 100).isUndef = true := by
    rw [hT]
    exact EVal.isUndef_mul_num (EVal.isUndef_div_num_zero _) 100
  exact ⟨hT, hU, fun q => EVal.isUndef_ne_num hU q⟩

/-- C7 witness: the zero-price record (matched against cost 50, so the
profit value is finite and negative) has `netTotalSale = 0` and an
undefined, nonzero `profitPercent`. -/
theorem hitung_profit_zero_sale_witness :
    pZ ∈ hitung_profit agedZ ord0 ∧
    pZ.base.hargaSatuan = 0 ∧
    (pZ.totalJualNetto = EVal.num 0 ∧
     pZ.profitPercent.isUndef = true ∧
     ∀ q : ℚ, pZ.profitPercent ≠ EVal.num q) :=
  ⟨show pZ ∈ hitung_profit agedZ ord0 from List.mem_singleton_self pZ, rfl,
    hitung_profit_zero_sale agedZ ord0 pZ
      (show pZ ∈ hitung_profit agedZ ord0 from List.mem_singleton_self pZ) rfl⟩

/-- C8 at the failing input: a record with an unparseable registration
date gets the LITERAL STRING "NaT" as its transaction month (the
`astype(str)` of line 73 renders the missing period as "NaT", which
line 130 then filters by string comparison), while a parseable
2024-01-01 registration date correctly yields "2024-01". -/
theorem bulan_transaksi_nat_literal :
    (hitung_profit agedB ord0).map (fun p => p.bulanTransaksi) = ["NaT"] ∧
    (hitung_profit aged0 ord0).map (fun p => p.bulanTransaksi) = ["2024-01"] := by
  decide

end AgingProject
